import Mathlib

/-!
Verification development for the Valora order-to-invoice pipeline.

This file gives a shallow embedding, in Lean 4, of the core of the
repository:

* `src/algorithms/invoice.py` (`generate_invoice_pdf`): input decoding
  (the `str.strip` of code-fence characters followed by `json.loads`),
  defensive numeric coercion of quantity and cost fields, per-line
  totals, the single-page overflow check, and the subtotal / IVA /
  grand-total computation.
* `src/algorithms/email_processing.py` (`read_csv_columns`,
  `process_emails`): the straight-line per-message pipeline and its
  (absent) error handling.
* `src/app.py` (`main`): the polling loop.

Modelling conventions:

* Python exceptions are modelled with `Except PyErr`; the two distinct
  `ValueError` messages raised by `generate_invoice_pdf` are kept so the
  spec's `ExtractionFormatError` and `LayoutOverflowError` can be told
  apart.
* Python `float` arithmetic is modelled with exact rationals `ℚ`.  Every
  numeral handled by the claims under study is exactly representable at
  the displayed‑cents level, and all concrete inputs used below avoid
  round-to-nearest ties, so the rational model and IEEE-754 doubles
  produce the same displayed values.
* `f"$\x7bx:.2f\x7d"` display formatting is modelled by rounding to two
  decimal places (`round2`).  Python formats a double with
  round-half-even on its exact binary value; exact decimal ties are not
  exercised by any input below.
* `json.loads` is modelled by an executable recursive-descent JSON
  reader over the value grammar actually exchanged by the pipeline
  (strings without escape sequences, integers, arrays, objects);
  string escape sequences and float/exponent literals make the reader
  fail and are never exercised.  `json.dumps` (used for the
  string-path/dict-path equivalence) is modelled on the same fragment
  with its default separators.
-/

namespace Valora

/-- JSON-like values: the payloads exchanged between the pipeline stages
(decoded text-understanding responses and the dict input of
`generate_invoice_pdf`). -/
inductive Json where
  | str : String → Json
  | num : Int → Json
  | arr : List Json → Json
  | obj : List (String × Json) → Json

/-- Python exceptions relevant to the embedded code.  `valueError` keeps
the message so the two `ValueError`s of `generate_invoice_pdf` stay
distinguishable. -/
inductive PyErr where
  | valueError : String → PyErr
  | attributeError : PyErr
  | typeError : PyErr
deriving DecidableEq

/-- Message of the `ValueError` raised when `json.loads` fails. -/
def jsonErrMsg : String := "matched_products is not a valid JSON string"

/-- Message of the `ValueError` raised by the one-page overflow check. -/
def overflowMsg : String :=
  "Table is too large to fit on one page. Consider splitting it into multiple pages."

/-- Python `dict` lookup on our association-list representation (keys of
a Python dict are unique, so first match is the value). -/
def lookupField : List (String × Json) → String → Option Json
  | [], _ => none
  | (k, v) :: rest, key => if k = key then some v else lookupField rest key

/-- Whitespace characters stripped by Python `str.strip()` /
`int` / `float` conversion (the forms exercised here). -/
def isWs (c : Char) : Bool := c = ' ' || c = '\n' || c = '\t' || c = '\r'

/-- Decimal digits to a natural number, most significant first. -/
def digitsToNat (l : List Char) : Nat := l.foldl (fun a c => a * 10 + (c.toNat - 48)) 0

/-- Drop characters satisfying `p` from both ends of a list (the
behaviour of Python `str.strip(chars)`). -/
def trimChars (p : Char → Bool) (l : List Char) : List Char :=
  ((l.dropWhile p).reverse.dropWhile p).reverse

/-- Model of Python `int(s)` for a string argument: optional sign and a
nonempty run of digits, surrounding whitespace allowed; `none` models
`ValueError`.  (Digit-group underscores are not modelled; no input here
uses them.) -/
def pyIntStr (s : String) : Option Int :=
  let cs := trimChars isWs s.data
  match cs with
  | '-' :: ds => if ds ≠ [] ∧ ds.all Char.isDigit then some (-(digitsToNat ds : Int)) else none
  | '+' :: ds => if ds ≠ [] ∧ ds.all Char.isDigit then some ((digitsToNat ds : Int)) else none
  | ds => if ds ≠ [] ∧ ds.all Char.isDigit then some ((digitsToNat ds : Int)) else none

/-- Model of Python `float(s)`: the value is returned as a pair
(mantissa, number of decimal places), so that the conversion itself
stays kernel-computable; `none` models `ValueError`.  Covers the decimal
forms `[sign] digits`, `[sign] digits . digits*` and `[sign] . digits`;
exponent, `inf` and `nan` forms are not modelled (never exercised). -/
def pyFloatRaw (s : String) : Option (Int × Nat) :=
  let cs := trimChars isWs s.data
  let sgn : Int := match cs with
    | '-' :: _ => -1
    | _ => 1
  let cs1 := match cs with
    | '-' :: r => r
    | '+' :: r => r
    | r => r
  let ip := cs1.takeWhile Char.isDigit
  let rest := cs1.dropWhile Char.isDigit
  match rest with
  | [] => if ip.isEmpty then none else some (sgn * (digitsToNat ip : Int), 0)
  | '.' :: fr =>
      if fr.all Char.isDigit && (!ip.isEmpty || !fr.isEmpty) then
        some (sgn * (digitsToNat (ip ++ fr) : Int), fr.length)
      else none
  | _ => none

/-- Exact value of a parsed decimal literal. -/
def decValue (m : Int) (k : Nat) : ℚ := (m : ℚ) / (10 ^ k : ℚ)

/-- Rounding to two decimal places, the model of `f"\x7bx:.2f\x7d"`
display formatting (and of `float` re-parsing the displayed text). -/
def round2 (q : ℚ) : ℚ := ((⌊q * 100 + 1 / 2⌋ : ℤ) : ℚ) / 100

/-- Python `s.replace("$", "")`. -/
def removeDollar (s : String) : String := String.mk (s.data.filter (fun c => c ≠ '$'))

/-- Model of `int(x)` applied to a field value, under the
`except ValueError: cantidad = 1` handler of the source: an `int` stays
itself, a string parses with fallback `1`, and a list or dict raises
`TypeError`, which the handler does not catch. -/
def pyIntLike : Json → Except PyErr Int
  | .num n => .ok n
  | .str s => .ok ((pyIntStr s).getD 1)
  | .arr _ => .error .typeError
  | .obj _ => .error .typeError

/-- One row of the rendered table: the raw name value, the coerced
quantity, and the displayed (2-decimal) unit price and line total, as
appended by the loop body of `generate_invoice_pdf` (invoice.py lines
94-109). -/
structure Row where
  nombre : Json
  cantidad : Int
  precio : ℚ
  total : ℚ

/-- The loop body of `generate_invoice_pdf` for one product record:
`nombre`, `cantidad` (default `0`) and `costo` (default `"0"`) are read
with `dict.get`; `costo` must be a string (otherwise `.replace` raises
`AttributeError`); `int(cantidad)` falls back to `1` on `ValueError`;
`float(costo)` falls back to `1.0` on `ValueError`; the stored strings
show the unit price and the line total at two decimals. -/
def productRow (p : Json) : Except PyErr Row :=
  match p with
  | .obj kvs =>
    let nombre := (lookupField kvs "nombre").getD (.str "")
    let cantidadRaw := (lookupField kvs "cantidad").getD (.num 0)
    let costoRaw := (lookupField kvs "costo").getD (.str "0")
    match costoRaw with
    | .str costoStr =>
      let stripped := removeDollar costoStr
      match pyIntLike cantidadRaw with
      | .error e => .error e
      | .ok cantidad =>
        let costo : ℚ := match pyFloatRaw stripped with
          | some (m, k) => decValue m k
          | none => 1
        .ok ⟨nombre, cantidad, round2 costo, round2 ((cantidad : ℚ) * costo)⟩
    | _ => .error .attributeError
  | _ => .error .attributeError

/-- Iteration of `for product in productos` combined with what
`productos = matched_products.get("productos", [])` yields: a missing
key gives `[]`; a list is iterated as is; a string is iterated
character by character; iterating an `int` raises `TypeError`; iterating
a dict yields its keys; `.get` on a non-dict raises `AttributeError`. -/
def getProductos : Json → Except PyErr (List Json)
  | .obj kvs =>
    match lookupField kvs "productos" with
    | none => .ok []
    | some (.arr l) => .ok l
    | some (.str s) => .ok (s.data.map (fun c => Json.str (String.mk [c])))
    | some (.num _) => .error .typeError
    | some (.obj kvs2) => .ok (kvs2.map (fun kv => Json.str kv.1))
  | _ => .error .attributeError

/-- The table-building loop: rows are appended until the first uncaught
exception, which aborts the whole call. -/
def buildRows : List Json → Except PyErr (List Row)
  | [] => .ok []
  | p :: ps => do
    let r ← productRow p
    let rs ← buildRows ps
    .ok (r :: rs)

/-- Height of a US-letter page in points (`reportlab` `letter`). -/
def letterHeight : Int := 792

/-- Vertical position of the table, `title_y_position - 60` where
`title_y_position = height - 50` (invoice.py lines 66 and 128). -/
def tableYPosition : Int := letterHeight - 50 - 60

/-- The fixed row height constant (invoice.py line 124). -/
def rowHeight : Int := 20

/-- The overflow test of invoice.py line 129:
`table_y_position - table_height < 50` with
`table_height = len(table_data) * row_height` and
`len(table_data) = numRows + 1` (header row included). -/
def tableOverflow (numRows : Nat) : Bool :=
  tableYPosition - rowHeight * ((numRows : Int) + 1) < 50

/-- The data the rendered and saved PDF displays: the table rows and the
subtotal / IVA / total block. -/
structure Invoice where
  rows : List Row
  subtotal : ℚ
  iva : ℚ
  total : ℚ

/-- Body of `generate_invoice_pdf` after input decoding: build the table
rows, raise the one-page overflow `ValueError` when the height check
fails (before anything is saved), otherwise compute
`subtotal = sum(float(row[3].replace("$", "")) ...)` — the sum of the
displayed, 2-decimal line totals — then `iva = subtotal * 0.16` and the
grand total.  An `.ok` result corresponds to `c.save()` writing the
document; an `.error` result corresponds to the exception propagating
with no document written. -/
def renderInvoice (matched : Json) : Except PyErr Invoice := do
  let productos ← getProductos matched
  let rows ← buildRows productos
  if tableOverflow rows.length then
    .error (.valueError overflowMsg)
  else
    let subtotal := (rows.map Row.total).sum
    let iva := subtotal * (16 / 100)
    .ok ⟨rows, subtotal, iva, subtotal + iva⟩

/-- The character set of `matched_products.strip("\x60\x60\x60json")`:
the backtick (code 96) and the letters of `json`. -/
def stripSetChar (c : Char) : Bool :=
  c.toNat = 96 || c = 'j' || c = 's' || c = 'o' || c = 'n'

/-- Python `matched_products.strip("\x60\x60\x60json")` (invoice.py line
46): remove every character of the set from both ends. -/
def pyStripMarkers (s : String) : String := String.mk (trimChars stripSetChar s.data)

/-- Skip JSON insignificant whitespace. -/
def skipWs (l : List Char) : List Char := l.dropWhile isWs

/-- Read a JSON string body after the opening quote, up to the closing
quote.  Escape sequences are not modelled: a backslash makes the reader
fail (no exercised payload contains one). -/
def readStrBody (cs : List Char) : Option (String × List Char) :=
  let body := cs.takeWhile (fun c => c ≠ '"')
  if body.contains '\\' then none
  else
    match cs.dropWhile (fun c => c ≠ '"') with
    | d :: rest => if d = '"' then some (String.mk body, rest) else none
    | [] => none

/-- Read an unsigned JSON integer literal; a fraction or exponent part
makes the reader fail (the pipeline's payloads carry no float
literals). -/
def readNatNum (cs : List Char) : Option (Nat × List Char) :=
  let ds := cs.takeWhile Char.isDigit
  let rest := cs.dropWhile Char.isDigit
  if ds.isEmpty then none
  else
    match rest with
    | '.' :: _ => none
    | 'e' :: _ => none
    | 'E' :: _ => none
    | _ => some (digitsToNat ds, rest)

/-- Read a JSON number with optional leading minus. -/
def readNum (cs : List Char) : Option (Json × List Char) :=
  match cs with
  | '-' :: rest => (readNatNum rest).map (fun p => (Json.num (-(p.1 : Int)), p.2))
  | _ => (readNatNum cs).map (fun p => (Json.num ((p.1 : Int)), p.2))

mutual

/-- Fuel-indexed recursive-descent JSON value reader (model of the
`json.loads` grammar on the fragment exchanged by the pipeline). -/
def readVal : Nat → List Char → Option (Json × List Char)
  | 0, _ => none
  | fuel + 1, cs =>
    match skipWs cs with
    | [] => none
    | c :: rest =>
      if c = '"' then (readStrBody rest).map (fun p => (Json.str p.1, p.2))
      else if c = '[' then
        match skipWs rest with
        | [] => none
        | d :: r =>
          if d = ']' then some (Json.arr [], r)
          else (readItems fuel (d :: r)).map (fun p => (Json.arr p.1, p.2))
      else if c = '{' then
        match skipWs rest with
        | [] => none
        | d :: r =>
          if d = '}' then some (Json.obj [], r)
          else (readMembers fuel (d :: r)).map (fun p => (Json.obj p.1, p.2))
      else readNum (c :: rest)

/-- Read the elements of a nonempty JSON array, including the closing
bracket. -/
def readItems : Nat → List Char → Option (List Json × List Char)
  | 0, _ => none
  | fuel + 1, cs =>
    match readVal fuel cs with
    | none => none
    | some (v, r) =>
      match skipWs r with
      | [] => none
      | d :: r2 =>
        if d = ',' then
          match readItems fuel r2 with
          | none => none
          | some (l, r3) => some (v :: l, r3)
        else if d = ']' then some ([v], r2)
        else none

/-- Read the members of a nonempty JSON object, including the closing
brace. -/
def readMembers : Nat → List Char → Option (List (String × Json) × List Char)
  | 0, _ => none
  | fuel + 1, cs =>
    match skipWs cs with
    | [] => none
    | c :: r0 =>
      if c = '"' then
        match readStrBody r0 with
        | none => none
        | some (k, r1) =>
          match skipWs r1 with
          | [] => none
          | d :: r2 =>
            if d = ':' then
              match readVal fuel r2 with
              | none => none
              | some (v, r3) =>
                match skipWs r3 with
                | [] => none
                | e :: r4 =>
                  if e = ',' then
                    match readMembers fuel r4 with
                    | none => none
                    | some (l, r5) => some ((k, v) :: l, r5)
                  else if e = '}' then some ([(k, v)], r4)
                  else none
            else none
      else none

end

/-- Model of `json.loads`: trim surrounding whitespace, read one value,
require the input to be exhausted; `none` models `json.JSONDecodeError`. -/
def jsonLoads (s : String) : Option Json :=
  let cs := trimChars isWs s.data
  match readVal (cs.length + 1) cs with
  | some (v, r) => if r.isEmpty then some v else none
  | none => none

/-- The argument of `generate_invoice_pdf`: a JSON string or an
already-decoded dict-like value. -/
inductive MatchedInput where
  | str : String → MatchedInput
  | dict : Json → MatchedInput

/-- The embedded `generate_invoice_pdf` (invoice.py lines 21-158): a
string input is stripped of code-fence characters and decoded
(`ValueError` on decode failure); then the table is built, the one-page
check applied, and the totals computed. -/
def generate_invoice_pdf (matched_products : MatchedInput) : Except PyErr Invoice :=
  match matched_products with
  | .str s =>
    match jsonLoads (pyStripMarkers s) with
    | some v => renderInvoice v
    | none => .error (.valueError jsonErrMsg)
  | .dict v => renderInvoice v

/-! The per-message pipeline of `email_processing.py` and the polling
loop of `app.py`.  The three OpenAI calls and the pandas read are
external collaborators; their outcomes are inputs of the model.  The
source `process_emails` is straight-line code with no `try`/`except`:
each stage's result feeds the next and any exception propagates. -/

/-- Stages of the per-message pipeline, in the order `process_emails`
runs them (email_processing.py lines 226-249). -/
inductive Stage where
  | extract
  | extractNames
  | readCsv
  | matchCosts
  | generateInvoice
  | sendEmail
deriving DecidableEq

/-- The embedded `read_csv_columns` (email_processing.py lines 113-133):
the pandas read either yields a JSON string or raises; the
`except Exception` handler prints the error and returns the empty
string.  No exception escapes and no `CatalogReadError` exists. -/
def read_csv_columns (pandasResult : Except String String) : String :=
  match pandasResult with
  | .ok s => s
  | .error _ => ""

/-- Collaborator outcomes for one message: the body, the two extraction
responses, the pandas read outcome, and the matching response as a
function of the exact arguments `process_emails` passes it. -/
structure MsgEnv where
  body : String
  extractResp : String
  namesResp : String
  pandasResult : Except String String
  matchResp : String → String → String

/-- The per-message body of `process_emails` (lines 226-249), recording
the stages reached in order.  There is no `try`/`except`: when
`generate_invoice_pdf` raises, the exception is the result of the whole
call and `send_email_with_pdf` is never reached. -/
def processOneMessage (env : MsgEnv) : List Stage × Except PyErr Unit :=
  let json_products := env.extractResp
  let _product_names := env.namesResp
  let products_json_string := read_csv_columns env.pandasResult
  let matched_products := env.matchResp json_products products_json_string
  match generate_invoice_pdf (.str matched_products) with
  | .error e =>
    ([.extract, .extractNames, .readCsv, .matchCosts, .generateInvoice], .error e)
  | .ok _ =>
    ([.extract, .extractNames, .readCsv, .matchCosts, .generateInvoice, .sendEmail], .ok ())

/-- The embedded `process_emails` (lines 189-249): an absent connection
or an empty fetch returns early with no stages run; otherwise the first
message is processed and its outcome — exception included — is the
outcome of `process_emails`. -/
def process_emails (connected : Bool) (msgs : List MsgEnv) : List Stage × Except PyErr Unit :=
  if !connected then ([], .ok ())
  else
    match msgs with
    | [] => ([], .ok ())
    | env :: _ => processOneMessage env

/-- The polling loop of `app.py` `main`: each cycle calls
`process_emails` with no handler around it, so the first uncaught
exception terminates the loop (and the process).  The result counts the
cycles that completed. -/
def runLoop : List (Bool × List MsgEnv) → Except PyErr Nat
  | [] => .ok 0
  | (connected, msgs) :: rest =>
    match (process_emails connected msgs).2 with
    | .error e => .error e
    | .ok _ =>
      match runLoop rest with
      | .error e => .error e
      | .ok n => .ok (n + 1)

/-! Well-formedness predicates and concrete inputs used by the
theorems. -/

/-- A product record on which the table-building loop cannot raise: a
dict whose `costo` field, when present, is a string, and whose
`cantidad` field, when present, is a string or a number.  (Exactly the
shapes the defensive coercion of invoice.py lines 95-107 absorbs.) -/
def productLike : Json → Bool
  | .obj kvs =>
    (match lookupField kvs "costo" with
     | none => true
     | some (.str _) => true
     | some _ => false) &&
    (match lookupField kvs "cantidad" with
     | none => true
     | some (.str _) => true
     | some (.num _) => true
     | some _ => false)
  | _ => false

/-- The `costo` field of a product record is absent or a string. -/
def costoFieldStr (kvs : List (String × Json)) : Bool :=
  match lookupField kvs "costo" with
  | none => true
  | some (.str _) => true
  | some _ => false

/-- Wrap a product list into the dict shape `generate_invoice_pdf`
expects. -/
def wrapProductos (ps : List Json) : Json := Json.obj [("productos", Json.arr ps)]

/-- A product record with string fields. -/
def mkProduct (nombre cantidad costo : String) : Json :=
  Json.obj [("nombre", Json.str nombre), ("cantidad", Json.str cantidad),
            ("costo", Json.str costo)]

/-- The end-to-end example order of the spec (quantities 5, 3, 2 against
unit costs 800.00, 200.00, 300.00). -/
def sampleOrder : Json :=
  wrapProductos [mkProduct "LAPTOP HP" "5" "$800.00",
                 mkProduct "IMPRESORA EPSON" "3" "$200.00",
                 mkProduct "MONITOR DELL" "2" "$300.00"]

/-! A model of `json.dumps` (default separators, `ensure_ascii`) on the
matched-products fragment: an object whose single key `"productos"`
holds a list of records with string keys and string values.  A
`MatchedDict` is such a dictionary; `plainChar` delimits the characters
on which the model's output agrees character-for-character with
`json.dumps` (printable ASCII needing no escape). -/

/-- A matched-products dictionary: the list of product records, each a
list of string key / string value pairs. -/
def MatchedDict := List (List (String × String))

/-- Characters serialized verbatim by `json.dumps`: printable ASCII that
is not a quote (34) or a backslash (92). -/
def plainChar (c : Char) : Bool :=
  32 ≤ c.toNat && c.toNat ≤ 126 && c.toNat ≠ 34 && c.toNat ≠ 92

/-- Every character of the string is serialized verbatim. -/
def plainStr (s : String) : Bool := s.data.all plainChar

/-- Every key and value of a product record is plain. -/
def plainKV (p : List (String × String)) : Bool :=
  p.all (fun kv => plainStr kv.1 && plainStr kv.2)

/-- Every product record of the dictionary is plain. -/
def plainDict (d : MatchedDict) : Bool := d.all plainKV

/-- Characters of a serialized JSON string. -/
def dumpStr (s : String) : List Char := '"' :: (s.data ++ ['"'])

/-- Characters of the serialized members of a product record, separated
by a comma and a space, each key and value separated by a colon and a
space, as `json.dumps` emits them. -/
def dumpFields : List (String × String) → List Char
  | [] => []
  | [(k, v)] => dumpStr k ++ (':' :: ' ' :: dumpStr v)
  | (k, v) :: rest => dumpStr k ++ (':' :: ' ' :: dumpStr v) ++ (',' :: ' ' :: dumpFields rest)

/-- Characters of a serialized product record. -/
def dumpProduct (p : List (String × String)) : List Char := '{' :: (dumpFields p ++ ['}'])

/-- Characters of the serialized product list, comma-space separated. -/
def dumpProductList : MatchedDict → List Char
  | [] => []
  | [p] => dumpProduct p
  | p :: rest => dumpProduct p ++ (',' :: ' ' :: dumpProductList rest)

/-- Characters of `json.dumps` applied to the whole matched-products
dictionary. -/
def matchedDumpsChars (d : MatchedDict) : List Char :=
  '{' :: (dumpStr "productos" ++ (':' :: ' ' :: '[' :: (dumpProductList d ++ [']', '}'])))

/-- The `json.dumps` string of a matched-products dictionary. -/
def matchedDumps (d : MatchedDict) : String := String.mk (matchedDumpsChars d)

/-- The `Json` value a matched-products record denotes. -/
def productJson (p : List (String × String)) : Json :=
  Json.obj (p.map (fun kv => (kv.1, Json.str kv.2)))

/-- The `Json` value a matched-products dictionary denotes (the value
the dict-input path of `generate_invoice_pdf` receives). -/
def matchedJson (d : MatchedDict) : Json :=
  Json.obj [("productos", Json.arr (d.map productJson))]

/-- Fuel sufficient for `readItems` on a serialized product list. -/
def fuelItems (d : MatchedDict) : Nat := (d.map (fun p => p.length + 3)).sum

/-! Theorems. -/

/-- C1: the Pricing Engine's invoice computation, applied to the priced
item list with quantities 5, 3, 2 at unit costs 800.00, 200.00, 300.00,
produces exactly the line totals 4000.00, 600.00, 600.00 in order,
subtotal 5200.00, tax 832.00 (subtotal times the fixed rate 0.16) and
grand total 6032.00 (subtotal plus tax). -/
theorem spec_C1_end_to_end_totals :
    generate_invoice_pdf (.dict sampleOrder) =
      .ok ⟨[⟨.str "LAPTOP HP", 5, 800, 4000⟩,
            ⟨.str "IMPRESORA EPSON", 3, 200, 600⟩,
            ⟨.str "MONITOR DELL", 2, 300, 600⟩], 5200, 832, 6032⟩ := by
  have r1 : productRow (mkProduct "LAPTOP HP" "5" "$800.00") =
      .ok ⟨.str "LAPTOP HP", 5, round2 (decValue 80000 2), round2 (((5:ℤ):ℚ) * decValue 80000 2)⟩ :=
    rfl
  have r2 : productRow (mkProduct "IMPRESORA EPSON" "3" "$200.00") =
      .ok ⟨.str "IMPRESORA EPSON", 3, round2 (decValue 20000 2), round2 (((3:ℤ):ℚ) * decValue 20000 2)⟩ :=
    rfl
  have r3 : productRow (mkProduct "MONITOR DELL" "2" "$300.00") =
      .ok ⟨.str "MONITOR DELL", 2, round2 (decValue 30000 2), round2 (((2:ℤ):ℚ) * decValue 30000 2)⟩ :=
    rfl
  have q1 : round2 (decValue 80000 2) = 800 := by norm_num [round2, decValue]
  have q2 : round2 (((5:ℤ):ℚ) * decValue 80000 2) = 4000 := by norm_num [round2, decValue]
  have q3 : round2 (decValue 20000 2) = 200 := by norm_num [round2, decValue]
  have q4 : round2 (((3:ℤ):ℚ) * decValue 20000 2) = 600 := by norm_num [round2, decValue]
  have q5 : round2 (decValue 30000 2) = 300 := by norm_num [round2, decValue]
  have q6 : round2 (((2:ℤ):ℚ) * decValue 30000 2) = 600 := by norm_num [round2, decValue]
  rw [q1, q2] at r1
  rw [q3, q4] at r2
  rw [q5, q6] at r3
  have hb : buildRows [mkProduct "LAPTOP HP" "5" "$800.00",
      mkProduct "IMPRESORA EPSON" "3" "$200.00", mkProduct "MONITOR DELL" "2" "$300.00"] =
      .ok [⟨.str "LAPTOP HP", 5, 800, 4000⟩, ⟨.str "IMPRESORA EPSON", 3, 200, 600⟩,
           ⟨.str "MONITOR DELL", 2, 300, 600⟩] := by
    simp only [buildRows, r1, r2, r3, bind, Except.bind]
  simp only [generate_invoice_pdf, sampleOrder, wrapProductos, renderInvoice, getProductos,
    lookupField, bind, Except.bind, if_true, if_false, reduceIte]
  rw [hb]
  norm_num [tableOverflow, tableYPosition, letterHeight, rowHeight, Row.total, overflowMsg]

/-- C7: an item whose quantity field is the string `"abc"` and whose
cost field is the string `"$-"` does not raise: the engine substitutes
the fallbacks quantity 1 and cost 1.00, computes line total 1.00, and
the line is rendered (the call succeeds, with subtotal 1.00, tax 0.16
and total 1.16). -/
theorem spec_C7_defensive_coercion (nombre : String) :
    generate_invoice_pdf (.dict (wrapProductos [mkProduct nombre "abc" "$-"])) =
      .ok ⟨[⟨.str nombre, 1, 1, 1⟩], 1, 4 / 25, 29 / 25⟩ := by
  have r1 : productRow (mkProduct nombre "abc" "$-") =
      .ok ⟨.str nombre, 1, round2 1, round2 (((1:ℤ):ℚ) * 1)⟩ := rfl
  have q1 : round2 (1 : ℚ) = 1 := by norm_num [round2]
  have q2 : round2 (((1:ℤ):ℚ) * 1) = 1 := by norm_num [round2]
  rw [q1, q2] at r1
  have hb : buildRows [mkProduct nombre "abc" "$-"] = .ok [⟨.str nombre, 1, 1, 1⟩] := by
    simp only [buildRows, r1, bind, Except.bind]
  simp only [generate_invoice_pdf, wrapProductos, renderInvoice, getProductos,
    lookupField, bind, Except.bind, if_true, if_false, reduceIte]
  rw [hb]
  norm_num [tableOverflow, tableYPosition, letterHeight, rowHeight, Row.total, overflowMsg]

/-- On a `productLike` record the defensive coercions absorb everything
and the table-building loop body returns a row. -/
theorem productRow_ok (p : Json) (h : productLike p = true) : ∃ r, productRow p = .ok r := by
  match p, h with
  | .obj kvs, h =>
    simp only [productLike, Bool.and_eq_true] at h
    obtain ⟨hc, hq⟩ := h
    have hcok : ∃ s, (lookupField kvs "costo").getD (.str "0") = .str s := by
      revert hc
      cases lookupField kvs "costo" with
      | none => intro _; exact ⟨"0", rfl⟩
      | some v =>
        cases v with
        | str s => intro _; exact ⟨s, rfl⟩
        | num n => intro hh; simp at hh
        | arr l => intro hh; simp at hh
        | obj o => intro hh; simp at hh
    have hqok : ∃ n, pyIntLike ((lookupField kvs "cantidad").getD (.num 0)) = .ok n := by
      revert hq
      cases lookupField kvs "cantidad" with
      | none => intro _; exact ⟨0, rfl⟩
      | some v =>
        cases v with
        | str s => intro _; exact ⟨(pyIntStr s).getD 1, rfl⟩
        | num n => intro _; exact ⟨n, rfl⟩
        | arr l => intro hh; simp at hh
        | obj o => intro hh; simp at hh
    obtain ⟨s, hs⟩ := hcok
    obtain ⟨n, hn⟩ := hqok
    simp only [productRow, hs, hn]
    exact ⟨_, rfl⟩

/-- On a list of `productLike` records the table-building loop raises
nothing and yields one row per record. -/
theorem buildRows_ok (ps : List Json) (h : ps.all productLike = true) :
    ∃ rows, buildRows ps = .ok rows ∧ rows.length = ps.length := by
  induction ps with
  | nil => exact ⟨[], rfl, rfl⟩
  | cons p ps ih =>
    simp only [List.all_cons, Bool.and_eq_true] at h
    obtain ⟨r, hr⟩ := productRow_ok p h.1
    obtain ⟨rows, hrows, hlen⟩ := ih h.2
    refine ⟨r :: rows, ?_, by simp [hlen]⟩
    simp only [buildRows, hr, hrows, bind, Except.bind]

/-- Reading the `"productos"` key back from the wrapping dict. -/
theorem getProductos_wrap (ps : List Json) : getProductos (wrapProductos ps) = .ok ps := rfl

/-- C2: for every product list, the one-page check fails exactly when
the computed table height pushes content below the bottom margin
(equivalently, at 31 or more rows); when it fails the call raises the
overflow `ValueError` — the model's `.error`, so nothing is saved — and
when it does not, rendering completes with one displayed row per item. -/
theorem spec_C2_layout_overflow (ps : List Json) (h : ps.all productLike = true) :
    (tableOverflow ps.length = true ↔ 31 ≤ ps.length) ∧
    (tableOverflow ps.length = true →
      generate_invoice_pdf (.dict (wrapProductos ps)) = .error (.valueError overflowMsg)) ∧
    (tableOverflow ps.length = false →
      ∃ inv, generate_invoice_pdf (.dict (wrapProductos ps)) = .ok inv ∧
        inv.rows.length = ps.length) := by
  obtain ⟨rows, hb, hlen⟩ := buildRows_ok ps h
  have hmain : generate_invoice_pdf (.dict (wrapProductos ps)) =
      if tableOverflow ps.length = true then .error (.valueError overflowMsg)
      else .ok ⟨rows, (rows.map Row.total).sum,
          (rows.map Row.total).sum * (16 / 100),
          (rows.map Row.total).sum + (rows.map Row.total).sum * (16 / 100)⟩ := by
    simp only [generate_invoice_pdf, renderInvoice, getProductos_wrap, bind, Except.bind]
    rw [hb]
    simp only [hlen]
  refine ⟨?_, ?_, ?_⟩
  · simp only [tableOverflow, tableYPosition, letterHeight, rowHeight, decide_eq_true_eq]
    omega
  · intro hov
    rw [hmain, if_pos hov]
  · intro hov
    rw [hmain, if_neg (by rw [hov]; simp)]
    exact ⟨_, rfl, hlen⟩

/-- Witness for C2: 100 single-line items overflow and raise, 5 items
render. -/
theorem spec_C2_layout_overflow_witness :
    ((List.replicate 100 (mkProduct "P" "1" "$10.00")).all productLike = true ∧
      tableOverflow (List.replicate 100 (mkProduct "P" "1" "$10.00")).length = true ∧
      generate_invoice_pdf (.dict (wrapProductos (List.replicate 100 (mkProduct "P" "1" "$10.00")))) =
        .error (.valueError overflowMsg)) ∧
    ((List.replicate 5 (mkProduct "P" "1" "$10.00")).all productLike = true ∧
      tableOverflow (List.replicate 5 (mkProduct "P" "1" "$10.00")).length = false ∧
      ∃ inv, generate_invoice_pdf (.dict (wrapProductos (List.replicate 5 (mkProduct "P" "1" "$10.00")))) = .ok inv ∧
        inv.rows.length = (List.replicate 5 (mkProduct "P" "1" "$10.00")).length) := by
  refine ⟨⟨by decide, by decide, ?_⟩, ⟨by decide, by decide, ?_⟩⟩
  · exact (spec_C2_layout_overflow _ (by decide)).2.1 (by decide)
  · exact (spec_C2_layout_overflow _ (by decide)).2.2 (by decide)

/-- C3 counterexample: the response
`\x7b"items": [\x7b"nombre": "LAPTOP HP", "cantidad": "5"\x7d]\x7d` is
valid JSON but does not conform to the expected schema (its single
top-level key is `"items"`, not `"productos"`); the claim says it must
be rejected with an `ExtractionFormatError`/`ValueError`, yet the code
accepts it and renders a zero-row invoice. -/
theorem spec_C3_counterexample :
    generate_invoice_pdf
        (.str "\x7b\"items\": [\x7b\"nombre\": \"LAPTOP HP\", \"cantidad\": \"5\"\x7d]\x7d") =
      .ok ⟨[], 0, 0, 0⟩ := by
  have h : generate_invoice_pdf
      (.str "\x7b\"items\": [\x7b\"nombre\": \"LAPTOP HP\", \"cantidad\": \"5\"\x7d]\x7d") =
      .ok ⟨[], 0, 0 * (16 / 100), 0 + 0 * (16 / 100)⟩ := rfl
  rw [h]
  norm_num

/-- C3 amended: only a response on which `json.loads` fails is rejected
with the `ValueError`; a response that decodes to an object without the
`"productos"` key — whatever other keys it carries — is treated as an
order with zero items and produces a document. -/
theorem spec_C3_amended (s : String) :
    (jsonLoads (pyStripMarkers s) = none →
      generate_invoice_pdf (.str s) = .error (.valueError jsonErrMsg)) ∧
    (∀ kvs, jsonLoads (pyStripMarkers s) = some (.obj kvs) →
      lookupField kvs "productos" = none →
      generate_invoice_pdf (.str s) = .ok ⟨[], 0, 0, 0⟩) := by
  constructor
  · intro h
    simp only [generate_invoice_pdf, h]
  · intro kvs h hl
    simp only [generate_invoice_pdf, h, renderInvoice, getProductos, hl, bind, Except.bind,
      buildRows]
    norm_num [tableOverflow, tableYPosition, letterHeight, rowHeight]

/-- Witness for the amended C3: a plain-prose response raises the
`ValueError`, and a decodable response without the `"productos"` key is
accepted as zero items. -/
theorem spec_C3_amended_witness :
    generate_invoice_pdf (.str "This is not a valid JSON string") =
      .error (.valueError jsonErrMsg) ∧
    generate_invoice_pdf (.str "\x7b\"foo\": 1\x7d") = .ok ⟨[], 0, 0, 0⟩ := by
  constructor
  · exact (spec_C3_amended "This is not a valid JSON string").1 rfl
  · exact (spec_C3_amended "\x7b\"foo\": 1\x7d").2 [("foo", Json.num 1)] rfl rfl

/-- C8 counterexample: a product record with no quantity field and unit
cost 800.00 renders with quantity 0 and line total 0.00 — not with the
claimed fallback quantity 1 and a line total equal to the unit cost. -/
theorem spec_C8_counterexample :
    generate_invoice_pdf
        (.dict (wrapProductos [Json.obj [("nombre", Json.str "LAPTOP HP"),
                                         ("costo", Json.str "$800.00")]])) =
      .ok ⟨[⟨.str "LAPTOP HP", 0, 800, 0⟩], 0, 0, 0⟩ := by
  have r1 : productRow (Json.obj [("nombre", Json.str "LAPTOP HP"),
      ("costo", Json.str "$800.00")]) =
      .ok ⟨.str "LAPTOP HP", 0, round2 (decValue 80000 2), round2 (((0:ℤ):ℚ) * decValue 80000 2)⟩ :=
    rfl
  have q1 : round2 (decValue 80000 2) = 800 := by norm_num [round2, decValue]
  have q2 : round2 (((0:ℤ):ℚ) * decValue 80000 2) = 0 := by norm_num [round2, decValue]
  rw [q1, q2] at r1
  have hb : buildRows [Json.obj [("nombre", Json.str "LAPTOP HP"),
      ("costo", Json.str "$800.00")]] = .ok [⟨.str "LAPTOP HP", 0, 800, 0⟩] := by
    simp only [buildRows, r1, bind, Except.bind]
  simp only [generate_invoice_pdf, wrapProductos, renderInvoice, getProductos,
    lookupField, bind, Except.bind, if_true, if_false, reduceIte]
  rw [hb]
  norm_num [tableOverflow, tableYPosition, letterHeight, rowHeight, Row.total, overflowMsg]

/-- C8 amended: a record whose quantity field is absent gets quantity 0
(the `dict.get` default), so its rendered line shows quantity 0 and line
total 0.00; the documented fallback of 1 applies only to a present
quantity that fails integer parsing. -/
theorem spec_C8_absent_quantity (kvs : List (String × Json))
    (hq : lookupField kvs "cantidad" = none) (hc : costoFieldStr kvs = true) :
    ∃ r, productRow (.obj kvs) = .ok r ∧ r.cantidad = 0 ∧ r.total = 0 := by
  have hcok : ∃ s, (lookupField kvs "costo").getD (.str "0") = .str s := by
    revert hc
    unfold costoFieldStr
    cases lookupField kvs "costo" with
    | none => intro _; exact ⟨"0", rfl⟩
    | some v =>
      cases v with
      | str s => intro _; exact ⟨s, rfl⟩
      | num n => intro hh; simp at hh
      | arr l => intro hh; simp at hh
      | obj o => intro hh; simp at hh
  obtain ⟨s, hs⟩ := hcok
  simp only [productRow, hs, hq, Option.getD_none, pyIntLike]
  refine ⟨_, rfl, rfl, ?_⟩
  norm_num [round2]

/-- Witness for the amended C8: the concrete no-quantity record. -/
theorem spec_C8_absent_quantity_witness :
    ∃ r, productRow (.obj [("nombre", Json.str "X"), ("costo", Json.str "$5.00")]) = .ok r ∧
      r.cantidad = 0 ∧ r.total = 0 :=
  spec_C8_absent_quantity [("nombre", Json.str "X"), ("costo", Json.str "$5.00")] rfl rfl

/-- C4: on a polling cycle whose matched-products response is plain
prose, `generate_invoice_pdf` raises inside `process_emails`, and since
neither `process_emails` nor `main` has a handler, the exception is the
result of `process_emails` itself (it propagates past the orchestrator
boundary) and the polling loop terminates on it — the second cycle is
never attempted.  This contradicts the claim (and the repository's own
`test_main_process_emails_exception`, which expects `main` to survive a
`process_emails` exception). -/
theorem spec_C4_failure_escapes_orchestrator :
    (process_emails true
        [⟨"body", "extracted", "names", .ok "catalog", fun a b => "not json"⟩]).2 =
      .error (.valueError jsonErrMsg) ∧
    runLoop
        [(true, [⟨"body", "extracted", "names", .ok "catalog", fun a b => "not json"⟩]),
         (true, [⟨"body", "extracted", "names", .ok "catalog",
                  fun a b => "\x7b\"productos\": []\x7d"⟩])] =
      .error (.valueError jsonErrMsg) :=
  ⟨rfl, rfl⟩

/-- C5 counterexample: with a catalog read that fails, the per-message
pipeline still runs every stage — extraction, name extraction, matching
(which receives the empty string the failed read returned), invoice
generation and dispatch — and finishes without error, instead of
raising a `CatalogReadError` and stopping before extraction as the
claim states.  The match-stage stub returns a valid response only when
handed the empty catalog string, so the successful run also shows the
empty string flowed into reconciliation. -/
theorem spec_C5_counterexample :
    (processOneMessage ⟨"body", "extracted", "names", .error "No such file: products.csv",
        fun jp cat => if cat = "" then "\x7b\"productos\": []\x7d" else "unparseable"⟩).1 =
      [.extract, .extractNames, .readCsv, .matchCosts, .generateInvoice, .sendEmail] ∧
    (processOneMessage ⟨"body", "extracted", "names", .error "No such file: products.csv",
        fun jp cat => if cat = "" then "\x7b\"productos\": []\x7d" else "unparseable"⟩).2 =
      .ok () :=
  ⟨rfl, rfl⟩

/-- C5 amended: when the catalog read fails, `read_csv_columns` catches
the exception and returns the empty string — no `CatalogReadError`
exists — and the pipeline behaves exactly as if the catalog had been
read as the empty string: extraction and matching still run. -/
theorem spec_C5_catalog_failure (env : MsgEnv) (msg : String)
    (h : env.pandasResult = .error msg) :
    read_csv_columns env.pandasResult = "" ∧
    processOneMessage env =
      processOneMessage ⟨env.body, env.extractResp, env.namesResp, .ok "", env.matchResp⟩ ∧
    Stage.extract ∈ (processOneMessage env).1 ∧
    Stage.matchCosts ∈ (processOneMessage env).1 := by
  obtain ⟨body, er, nr, pr, mr⟩ := env
  simp only at h
  subst h
  refine ⟨rfl, rfl, ?_, ?_⟩
  · simp only [processOneMessage, read_csv_columns]
    cases generate_invoice_pdf (.str (mr er "")) <;> simp
  · simp only [processOneMessage, read_csv_columns]
    cases generate_invoice_pdf (.str (mr er "")) <;> simp

/-- Witness for the amended C5: a concrete failing catalog read. -/
theorem spec_C5_catalog_failure_witness :
    read_csv_columns (MsgEnv.pandasResult ⟨"b", "e", "n", .error "missing", fun a b => "m"⟩) = "" ∧
    processOneMessage ⟨"b", "e", "n", .error "missing", fun a b => "m"⟩ =
      processOneMessage ⟨"b", "e", "n", .ok "", fun a b => "m"⟩ ∧
    Stage.extract ∈ (processOneMessage ⟨"b", "e", "n", .error "missing", fun a b => "m"⟩).1 ∧
    Stage.matchCosts ∈ (processOneMessage ⟨"b", "e", "n", .error "missing", fun a b => "m"⟩).1 :=
  spec_C5_catalog_failure ⟨"b", "e", "n", .error "missing", fun a b => "m"⟩ "missing" rfl

/-- C6 counterexample: two lines of quantity 1 at unit cost 0.006.  Each
displayed line total is 0.01, and the code computes the subtotal by
re-parsing and summing those displayed values, giving 0.02 = 1/50.  The
full-precision sum of the line totals is 0.012 = 3/250, whose correct
2-decimal display would be 0.01 — so the claimed equality of the
subtotal with the exact sum fails, with visible cent-level drift. -/
theorem spec_C6_counterexample :
    ∃ inv,
      generate_invoice_pdf (.dict (wrapProductos
          [mkProduct "A" "1" "$0.006", mkProduct "B" "1" "$0.006"])) = .ok inv ∧
      inv.subtotal = 1 / 50 ∧
      (1:ℚ) * (6 / 1000) + (1:ℚ) * (6 / 1000) = 3 / 250 ∧
      inv.subtotal ≠ (1:ℚ) * (6 / 1000) + (1:ℚ) * (6 / 1000) ∧
      inv.subtotal ≠ round2 ((1:ℚ) * (6 / 1000) + (1:ℚ) * (6 / 1000)) := by
  have r1 : productRow (mkProduct "A" "1" "$0.006") =
      .ok ⟨.str "A", 1, round2 (decValue 6 3), round2 (((1:ℤ):ℚ) * decValue 6 3)⟩ := rfl
  have r2 : productRow (mkProduct "B" "1" "$0.006") =
      .ok ⟨.str "B", 1, round2 (decValue 6 3), round2 (((1:ℤ):ℚ) * decValue 6 3)⟩ := rfl
  have q1 : round2 (decValue 6 3) = 1 / 100 := by norm_num [round2, decValue]
  have q2 : round2 (((1:ℤ):ℚ) * decValue 6 3) = 1 / 100 := by norm_num [round2, decValue]
  rw [q1, q2] at r1
  rw [q1, q2] at r2
  have hb : buildRows [mkProduct "A" "1" "$0.006", mkProduct "B" "1" "$0.006"] =
      .ok [⟨.str "A", 1, 1 / 100, 1 / 100⟩, ⟨.str "B", 1, 1 / 100, 1 / 100⟩] := by
    simp only [buildRows, r1, r2, bind, Except.bind]
  have hg : generate_invoice_pdf (.dict (wrapProductos
      [mkProduct "A" "1" "$0.006", mkProduct "B" "1" "$0.006"])) =
      .ok ⟨[⟨.str "A", 1, 1 / 100, 1 / 100⟩, ⟨.str "B", 1, 1 / 100, 1 / 100⟩],
           1 / 50, 1 / 50 * (16 / 100), 1 / 50 + 1 / 50 * (16 / 100)⟩ := by
    simp only [generate_invoice_pdf, wrapProductos, renderInvoice, getProductos,
      lookupField, bind, Except.bind, if_true, if_false, reduceIte]
    rw [hb]
    norm_num [tableOverflow, tableYPosition, letterHeight, rowHeight, Row.total, overflowMsg]
  refine ⟨_, hg, rfl, by norm_num, by norm_num, ?_⟩
  norm_num [round2]

/-- C6 amended: the displayed line total of a parsed line is
`round2` of quantity times cost, and the subtotal the code computes is
the sum of those displayed (already rounded) line totals — obtained by
re-parsing the formatted strings — not the full-precision sum. -/
theorem spec_C6_rounded_subtotal :
    (∀ (nombre cantidad costo : String) (q m : Int) (k : Nat),
      pyIntStr cantidad = some q →
      pyFloatRaw (removeDollar costo) = some (m, k) →
      productRow (mkProduct nombre cantidad costo) =
        .ok ⟨.str nombre, q, round2 (decValue m k), round2 ((q : ℚ) * decValue m k)⟩) ∧
    (∀ (ps : List Json) (rows : List Row),
      buildRows ps = .ok rows → tableOverflow rows.length = false →
      generate_invoice_pdf (.dict (wrapProductos ps)) =
        .ok ⟨rows, (rows.map Row.total).sum, (rows.map Row.total).sum * (16 / 100),
             (rows.map Row.total).sum + (rows.map Row.total).sum * (16 / 100)⟩) := by
  constructor
  · intro nombre cantidad costo q m k hq hc
    simp [productRow, mkProduct, lookupField, pyIntLike, hq, hc]
  · intro ps rows hb hov
    simp only [generate_invoice_pdf, renderInvoice, getProductos_wrap, bind, Except.bind]
    rw [hb]
    simp only [hov, Bool.false_eq_true, if_false, reduceIte]

/-- Witness for the amended C6: one line of quantity 2 at cost 3.50. -/
theorem spec_C6_rounded_subtotal_witness :
    productRow (mkProduct "A" "2" "$3.50") =
      .ok ⟨.str "A", 2, round2 (decValue 350 2), round2 (((2:ℤ) : ℚ) * decValue 350 2)⟩ ∧
    generate_invoice_pdf (.dict (wrapProductos [mkProduct "A" "2" "$3.50"])) =
      .ok ⟨[⟨.str "A", 2, round2 (decValue 350 2), round2 (((2:ℤ) : ℚ) * decValue 350 2)⟩],
           ([⟨.str "A", 2, round2 (decValue 350 2), round2 (((2:ℤ) : ℚ) * decValue 350 2)⟩].map Row.total).sum,
           ([⟨.str "A", 2, round2 (decValue 350 2), round2 (((2:ℤ) : ℚ) * decValue 350 2)⟩].map Row.total).sum * (16 / 100),
           ([⟨.str "A", 2, round2 (decValue 350 2), round2 (((2:ℤ) : ℚ) * decValue 350 2)⟩].map Row.total).sum +
             ([⟨.str "A", 2, round2 (decValue 350 2), round2 (((2:ℤ) : ℚ) * decValue 350 2)⟩].map Row.total).sum * (16 / 100)⟩ := by
  have hr : productRow (mkProduct "A" "2" "$3.50") =
      .ok ⟨.str "A", 2, round2 (decValue 350 2), round2 (((2:ℤ) : ℚ) * decValue 350 2)⟩ :=
    spec_C6_rounded_subtotal.1 "A" "2" "$3.50" 2 350 2 rfl rfl
  refine ⟨hr, ?_⟩
  exact spec_C6_rounded_subtotal.2 [mkProduct "A" "2" "$3.50"]
    [⟨.str "A", 2, round2 (decValue 350 2), round2 (((2:ℤ) : ℚ) * decValue 350 2)⟩]
    (by simp only [buildRows, hr, bind, Except.bind]) (by decide)

/-- Dropping while a predicate holds skips a fully satisfying prefix. -/
theorem dropWhile_append_sat {α} (p : α → Bool) (l1 l2 : List α)
    (h : ∀ c ∈ l1, p c = true) : (l1 ++ l2).dropWhile p = l2.dropWhile p := by
  induction l1 with
  | nil => rfl
  | cons c cs ih =>
    simp only [List.cons_append, List.dropWhile_cons, h c (List.mem_cons_self c cs), if_true]
    exact ih (fun x hx => h x (List.mem_cons_of_mem c hx))

/-- Dropping while a predicate holds stops at an unsatisfying head. -/
theorem dropWhile_head_not_sat {α} (p : α → Bool) (l : List α) (c : α)
    (hh : l.head? = some c) (hc : p c = false) : l.dropWhile p = l := by
  cases l with
  | nil => cases hh
  | cons a t =>
    have : a = c := by injection hh
    subst this
    simp [List.dropWhile_cons, hc]

/-- Python `str.strip(chars)` removes a fully in-set prefix and suffix
and nothing more, as soon as the first and last kept characters are
outside the set. -/
theorem trimChars_wrap (p : Char → Bool) (m1 m2 mid : List Char)
    (h1 : ∀ c ∈ m1, p c = true) (h2 : ∀ c ∈ m2, p c = true)
    (c0 : Char) (hh : mid.head? = some c0) (hc0 : p c0 = false)
    (c1 : Char) (hl : mid.getLast? = some c1) (hc1 : p c1 = false) :
    trimChars p (m1 ++ mid ++ m2) = mid := by
  unfold trimChars
  rw [List.append_assoc, dropWhile_append_sat p m1 (mid ++ m2) h1]
  have hmid : (mid ++ m2).dropWhile p = mid ++ m2 := by
    refine dropWhile_head_not_sat p (mid ++ m2) c0 ?_ hc0
    cases mid with
    | nil => cases hh
    | cons a t => simpa using hh
  rw [hmid, List.reverse_append]
  rw [dropWhile_append_sat p m2.reverse mid.reverse
      (fun c hc => h2 c (List.mem_reverse.mp hc))]
  have hrev : mid.reverse.dropWhile p = mid.reverse := by
    refine dropWhile_head_not_sat p mid.reverse c1 ?_ hc1
    rw [List.head?_reverse]
    exact hl
  rw [hrev, List.reverse_reverse]

/-- Rebuilding a string from its characters is the identity. -/
theorem string_mk_data (s : String) : String.mk s.data = s := by
  cases s
  rfl

/-- The characters of a rebuilt string. -/
theorem data_string_mk (l : List Char) : (String.mk l).data = l := rfl

/-- C9: wrapping a JSON object text in code-fence markers — with or
without newlines inside the fences — is stripped away before parsing, so
the generator processes exactly the object the unwrapped text denotes:
both calls are equal. -/
theorem spec_C9_fence_stripping (J : String)
    (hhead : J.data.head? = some '{') (hlast : J.data.getLast? = some '}')
    (hval : ∃ kvs, jsonLoads J = some (Json.obj kvs)) :
    generate_invoice_pdf (.str ("```json" ++ J ++ "```")) = generate_invoice_pdf (.str J) ∧
    generate_invoice_pdf (.str ("```json\n" ++ J ++ "\n```")) = generate_invoice_pdf (.str J) := by
  clear hval
  have hopen : stripSetChar '{' = false := rfl
  have hclose : stripSetChar '}' = false := rfl
  have hstrip0 : pyStripMarkers J = J := by
    unfold pyStripMarkers
    have : trimChars stripSetChar J.data = J.data := by
      have := trimChars_wrap stripSetChar [] [] J.data (by simp) (by simp)
        '{' hhead hopen '}' hlast hclose
      simpa using this
    rw [this, string_mk_data]
  constructor
  · have hstrip1 : pyStripMarkers ("```json" ++ J ++ "```") = J := by
      unfold pyStripMarkers
      have hd : ("```json" ++ J ++ "```").data = "```json".data ++ J.data ++ "```".data := by
        simp [String.data_append]
      rw [hd, trimChars_wrap stripSetChar "```json".data "```".data J.data
        (by decide) (by decide) '{' hhead hopen '}' hlast hclose, string_mk_data]
    simp only [generate_invoice_pdf, hstrip1, hstrip0]
  · have hstrip2 : pyStripMarkers ("```json\n" ++ J ++ "\n```") =
        String.mk ('\n' :: (J.data ++ ['\n'])) := by
      unfold pyStripMarkers
      have hd : ("```json\n" ++ J ++ "\n```").data =
          "```json".data ++ ('\n' :: (J.data ++ ['\n'])) ++ "```".data := by
        simp [String.data_append]
      have hlast2 : ('\n' :: (J.data ++ ['\n'])).getLast? = some '\n' := by
        rw [show ('\n' :: (J.data ++ ['\n'])) = ('\n' :: J.data) ++ ['\n'] by simp]
        exact List.getLast?_concat _
      rw [hd, trimChars_wrap stripSetChar "```json".data "```".data
        ('\n' :: (J.data ++ ['\n'])) (by decide) (by decide)
        '\n' rfl rfl '\n' hlast2 rfl]
    have hload : jsonLoads (String.mk ('\n' :: (J.data ++ ['\n']))) = jsonLoads J := by
      unfold jsonLoads
      have ht : trimChars isWs ('\n' :: (J.data ++ ['\n'])) = J.data := by
        have := trimChars_wrap isWs ['\n'] ['\n'] J.data
          (by decide) (by decide) '{' hhead (by decide) '}' hlast (by decide)
        simpa using this
      have ht0 : trimChars isWs J.data = J.data := by
        have := trimChars_wrap isWs [] [] J.data (by simp) (by simp)
          '{' hhead (by decide) '}' hlast (by decide)
        simpa using this
      rw [data_string_mk, ht, ht0]
    simp only [generate_invoice_pdf, hstrip2, hstrip0, hload]

/-- Witness for C9: the concrete object text. -/
theorem spec_C9_fence_stripping_witness :
    generate_invoice_pdf (.str ("```json" ++ "\x7b\"productos\": []\x7d" ++ "```")) =
      generate_invoice_pdf (.str "\x7b\"productos\": []\x7d") ∧
    generate_invoice_pdf (.str ("```json\n" ++ "\x7b\"productos\": []\x7d" ++ "\n```")) =
      generate_invoice_pdf (.str "\x7b\"productos\": []\x7d") :=
  spec_C9_fence_stripping "\x7b\"productos\": []\x7d" rfl (by decide)
    ⟨[("productos", Json.arr [])], rfl⟩

theorem takeWhile_append_sat {α} (p : α → Bool) (l1 l2 : List α)
    (h : ∀ c ∈ l1, p c = true) : (l1 ++ l2).takeWhile p = l1 ++ l2.takeWhile p := by
  induction l1 with
  | nil => rfl
  | cons c cs ih =>
    simp only [List.cons_append, List.takeWhile_cons, h c (List.mem_cons_self c cs), if_true]
    rw [ih (fun x hx => h x (List.mem_cons_of_mem c hx))]

theorem plainStr_neq_quote (s : String) (hs : plainStr s = true) :
    ∀ c ∈ s.data, (decide (c ≠ '"')) = true := by
  intro c hc
  simp only [plainStr, List.all_eq_true] at hs
  have h := hs c hc
  simp only [plainChar, Bool.and_eq_true, decide_eq_true_eq] at h
  simp only [decide_eq_true_eq, ne_eq]
  intro hq
  subst hq
  exact h.1.2 rfl

theorem no_backslash_of_plain (s : String) (hs : plainStr s = true) :
    '\\' ∉ s.data := by
  intro hmem
  simp only [plainStr, List.all_eq_true] at hs
  have h := hs _ hmem
  simp only [plainChar, Bool.and_eq_true, decide_eq_true_eq] at h
  exact h.2 rfl

theorem readStrBody_dump (s : String) (hs : plainStr s = true) (rest : List Char) :
    readStrBody (s.data ++ '"' :: rest) = some (s, rest) := by
  unfold readStrBody
  have hall : ∀ c ∈ s.data, (decide (c ≠ '"')) = true := plainStr_neq_quote s hs
  rw [takeWhile_append_sat _ _ _ hall, dropWhile_append_sat _ _ _ hall]
  simp [no_backslash_of_plain s hs, string_mk_data]

theorem skipWs_cons_not_ws (c : Char) (l : List Char) (h : isWs c = false) :
    skipWs (c :: l) = c :: l := by
  simp [skipWs, List.dropWhile_cons, h]

theorem skipWs_cons_ws (c : Char) (l : List Char) (h : isWs c = true) :
    skipWs (c :: l) = skipWs l := by
  simp [skipWs, List.dropWhile_cons, h]

theorem readVal_str (fuel : Nat) (hf : 1 ≤ fuel) (v : String) (hv : plainStr v = true)
    (cs rest : List Char) (h : skipWs cs = dumpStr v ++ rest) :
    readVal fuel cs = some (.str v, rest) := by
  match fuel, hf with
  | fuel + 1, _ =>
    have hshape : dumpStr v ++ rest = '"' :: (v.data ++ '"' :: rest) := by
      simp [dumpStr]
    rw [hshape] at h
    simp only [readVal, h, if_true, if_false, reduceIte]
    rw [readStrBody_dump v hv rest]
    rfl

theorem skipWs_space (l : List Char) : skipWs (' ' :: l) = skipWs l := skipWs_cons_ws _ l rfl

theorem skipWs_quote (l : List Char) : skipWs ('"' :: l) = '"' :: l := skipWs_cons_not_ws _ l rfl

theorem skipWs_colon (l : List Char) : skipWs (':' :: l) = ':' :: l := skipWs_cons_not_ws _ l rfl

theorem skipWs_comma (l : List Char) : skipWs (',' :: l) = ',' :: l := skipWs_cons_not_ws _ l rfl

theorem skipWs_lbrace (l : List Char) : skipWs ('{' :: l) = '{' :: l := skipWs_cons_not_ws _ l rfl

theorem skipWs_rbrace (l : List Char) : skipWs ('}' :: l) = '}' :: l := skipWs_cons_not_ws _ l rfl

theorem skipWs_lbrack (l : List Char) : skipWs ('[' :: l) = '[' :: l := skipWs_cons_not_ws _ l rfl

theorem skipWs_rbrack (l : List Char) : skipWs (']' :: l) = ']' :: l := skipWs_cons_not_ws _ l rfl

theorem readMembers_dump (kvs : List (String × String)) :
    ∀ fuel, kvs.length + 1 ≤ fuel → plainKV kvs = true → kvs ≠ [] →
    ∀ cs rest, skipWs cs = dumpFields kvs ++ '}' :: rest →
    readMembers fuel cs = some (kvs.map (fun kv => (kv.1, Json.str kv.2)), rest) := by
  induction kvs with
  | nil => intro fuel _ _ hne; exact absurd rfl hne
  | cons a t ih =>
    obtain ⟨k, v⟩ := a
    intro fuel hf hp _ cs rest h
    simp only [plainKV, List.all_cons, Bool.and_eq_true] at hp
    obtain ⟨⟨hpk, hpv⟩, hpt⟩ := hp
    simp only [List.length_cons] at hf
    match fuel, hf with
    | fuel + 1, hf =>
      cases t with
      | nil =>
        have hshape : dumpFields [(k, v)] ++ '}' :: rest =
            '"' :: (k.data ++ '"' :: (':' :: (' ' :: ('"' :: (v.data ++ '"' :: ('}' :: rest)))))) := by
          simp [dumpFields, dumpStr]
        rw [hshape] at h
        have hval : readVal fuel (' ' :: ('"' :: (v.data ++ '"' :: ('}' :: rest)))) =
            some (.str v, '}' :: rest) :=
          readVal_str fuel (by omega) v hpv _ _
            (by rw [skipWs_space, skipWs_quote]; simp [dumpStr])
        simp only [readMembers, h, readStrBody_dump k hpk, hval, skipWs_colon, skipWs_space,
          skipWs_quote, skipWs_rbrace, if_true, if_false, reduceIte, Char.reduceEq, List.map]
      | cons b t' =>
        have hshape : dumpFields ((k, v) :: b :: t') ++ '}' :: rest =
            '"' :: (k.data ++ '"' :: (':' :: (' ' :: ('"' :: (v.data ++ '"' ::
              (',' :: (' ' :: (dumpFields (b :: t') ++ '}' :: rest)))))))) := by
          simp [dumpFields, dumpStr]
        rw [hshape] at h
        have hval : readVal fuel
            (' ' :: ('"' :: (v.data ++ '"' :: (',' :: (' ' :: (dumpFields (b :: t') ++ '}' :: rest)))))) =
            some (.str v, ',' :: (' ' :: (dumpFields (b :: t') ++ '}' :: rest))) :=
          readVal_str fuel (by omega) v hpv _ _
            (by rw [skipWs_space, skipWs_quote]; simp [dumpStr])
        have hnext : skipWs (' ' :: (dumpFields (b :: t') ++ '}' :: rest)) =
            dumpFields (b :: t') ++ '}' :: rest := by
          rw [skipWs_space]
          obtain ⟨l, hl⟩ : ∃ l, dumpFields (b :: t') = '"' :: l := by
            obtain ⟨bk, bv⟩ := b
            cases t' with
            | nil =>
              exact ⟨bk.data ++ '"' :: (':' :: (' ' :: ('"' :: (bv.data ++ ['"'])))),
                by simp [dumpFields, dumpStr]⟩
            | cons c t2 =>
              exact ⟨bk.data ++ '"' :: (':' :: (' ' :: ('"' :: (bv.data ++ '"' ::
                (',' :: (' ' :: dumpFields (c :: t2))))))), by simp [dumpFields, dumpStr]⟩
          rw [hl, List.cons_append, skipWs_quote]
        have hrec : readMembers fuel (' ' :: (dumpFields (b :: t') ++ '}' :: rest)) =
            some ((b :: t').map (fun kv => (kv.1, Json.str kv.2)), rest) :=
          ih fuel (by simp only [List.length_cons] at hf ⊢; omega) hpt (by simp) _ rest hnext
        simp only [readMembers, h, readStrBody_dump k hpk, hval, hrec, skipWs_colon,
          skipWs_space, skipWs_quote, skipWs_comma, if_true, if_false, reduceIte,
          Char.reduceEq, List.map]

theorem dumpFields_cons_shape (a : String × String) (t : List (String × String)) :
    ∃ l, dumpFields (a :: t) = '"' :: l := by
  obtain ⟨k, v⟩ := a
  cases t with
  | nil =>
    exact ⟨k.data ++ '"' :: (':' :: (' ' :: ('"' :: (v.data ++ ['"'])))),
      by simp [dumpFields, dumpStr]⟩
  | cons b t' =>
    exact ⟨k.data ++ '"' :: (':' :: (' ' :: ('"' :: (v.data ++ '"' ::
      (',' :: (' ' :: dumpFields (b :: t'))))))), by simp [dumpFields, dumpStr]⟩

theorem dumpProductList_cons_shape (p : List (String × String)) (t : MatchedDict) :
    ∃ l, dumpProductList (p :: t) = '{' :: l := by
  cases t with
  | nil => exact ⟨dumpFields p ++ ['}'], by simp [dumpProductList, dumpProduct]⟩
  | cons q t' =>
    exact ⟨(dumpFields p ++ ['}']) ++ (',' :: (' ' :: dumpProductList (q :: t'))),
      by simp [dumpProductList, dumpProduct]⟩

theorem readVal_product (p : List (String × String)) (fuel : Nat)
    (hf : p.length + 2 ≤ fuel) (hp : plainKV p = true)
    (cs rest : List Char) (h : skipWs cs = dumpProduct p ++ rest) :
    readVal fuel cs = some (productJson p, rest) := by
  match fuel, hf with
  | fuel + 1, hf =>
    cases p with
    | nil =>
      have hshape : dumpProduct ([] : List (String × String)) ++ rest = '{' :: ('}' :: rest) := by
        simp [dumpProduct, dumpFields]
      rw [hshape] at h
      simp only [readVal, h, skipWs_rbrace, if_true, if_false, reduceIte, Char.reduceEq,
        productJson, List.map]
    | cons a t =>
      obtain ⟨l, hl⟩ := dumpFields_cons_shape a t
      have hshape : dumpProduct (a :: t) ++ rest = '{' :: ('"' :: (l ++ '}' :: rest)) := by
        simp [dumpProduct, hl]
      rw [hshape] at h
      have hmem : readMembers fuel ('"' :: (l ++ '}' :: rest)) =
          some ((a :: t).map (fun kv => (kv.1, Json.str kv.2)), rest) := by
        refine readMembers_dump (a :: t) fuel ?_ hp (by simp) _ rest ?_
        · simp only [List.length_cons] at hf ⊢
          omega
        · rw [skipWs_quote, hl, List.cons_append]
      simp only [readVal, h, skipWs_quote, hmem, if_true, if_false, reduceIte, Char.reduceEq,
        productJson, Option.map]

theorem readItems_dump (d : MatchedDict) :
    ∀ fuel, fuelItems d ≤ fuel → plainDict d = true → d ≠ [] →
    ∀ cs rest, skipWs cs = dumpProductList d ++ ']' :: rest →
    readItems fuel cs = some (d.map productJson, rest) := by
  induction d with
  | nil => intro _ _ _ hne; exact absurd rfl hne
  | cons p t ih =>
    intro fuel hf hp _ cs rest h
    simp only [plainDict, List.all_cons, Bool.and_eq_true] at hp
    obtain ⟨hpp, hpt⟩ := hp
    simp only [fuelItems, List.map_cons, List.sum_cons] at hf
    obtain ⟨fuel, rfl⟩ : ∃ m, fuel = m + 1 := ⟨fuel - 1, by omega⟩
    cases t with
      | nil =>
        have hval : readVal fuel cs = some (productJson p, ']' :: rest) := by
          refine readVal_product p fuel ?_ hpp cs (']' :: rest) ?_
          · simp only [List.map_nil, List.sum_nil] at hf
            omega
          · rw [h]
            simp [dumpProductList]
        simp only [readItems, hval, skipWs_rbrack, Char.reduceEq, reduceIte, if_true,
          if_false, List.map]
      | cons q t' =>
        have hval : readVal fuel cs =
            some (productJson p, ',' :: (' ' :: (dumpProductList (q :: t') ++ ']' :: rest))) := by
          refine readVal_product p fuel (by omega) hpp cs
            (',' :: (' ' :: (dumpProductList (q :: t') ++ ']' :: rest))) ?_
          rw [h]
          simp [dumpProductList]
        have hnext : skipWs (' ' :: (dumpProductList (q :: t') ++ ']' :: rest)) =
            dumpProductList (q :: t') ++ ']' :: rest := by
          rw [skipWs_space]
          obtain ⟨l, hl⟩ := dumpProductList_cons_shape q t'
          rw [hl, List.cons_append, skipWs_lbrace]
        have hrec : readItems fuel (' ' :: (dumpProductList (q :: t') ++ ']' :: rest)) =
            some ((q :: t').map productJson, rest) := by
          refine ih fuel ?_ (by simpa [plainDict] using hpt) (by simp) _ rest hnext
          simp only [fuelItems, List.map_cons, List.sum_cons] at hf ⊢
          omega
        simp only [readItems, hval, skipWs_comma, hrec, Char.reduceEq, reduceIte, if_true,
          if_false, List.map]

theorem readVal_prodarray (d : MatchedDict) (fuel : Nat) (hf : fuelItems d + 2 ≤ fuel)
    (hp : plainDict d = true) (cs rest : List Char)
    (h : skipWs cs = '[' :: (dumpProductList d ++ ']' :: rest)) :
    readVal fuel cs = some (.arr (d.map productJson), rest) := by
  obtain ⟨fuel, rfl⟩ : ∃ m, fuel = m + 1 := ⟨fuel - 1, by omega⟩
  cases d with
  | nil =>
    have hshape : dumpProductList ([] : MatchedDict) ++ ']' :: rest = ']' :: rest := by
      simp [dumpProductList]
    rw [hshape] at h
    simp only [readVal, h, skipWs_rbrack, Char.reduceEq, reduceIte, if_true, if_false,
      List.map]
  | cons p t =>
    obtain ⟨l, hl⟩ := dumpProductList_cons_shape p t
    have hitems : readItems fuel ('{' :: (l ++ ']' :: rest)) =
        some ((p :: t).map productJson, rest) := by
      refine readItems_dump (p :: t) fuel (by omega) hp (by simp) _ rest ?_
      rw [skipWs_lbrace, hl, List.cons_append]
    rw [hl] at h
    simp only [List.cons_append] at h
    simp only [readVal, h, skipWs_lbrace, hitems, Char.reduceEq, reduceIte, if_true,
      if_false, Option.map]

theorem readVal_matched (d : MatchedDict) (fuel : Nat) (hf : fuelItems d + 4 ≤ fuel)
    (hp : plainDict d = true) (cs rest : List Char)
    (h : skipWs cs = matchedDumpsChars d ++ rest) :
    readVal fuel cs = some (matchedJson d, rest) := by
  obtain ⟨fuel, rfl⟩ : ∃ m, fuel = m + 1 := ⟨fuel - 1, by omega⟩
  obtain ⟨fuel, rfl⟩ : ∃ m, fuel = m + 1 := ⟨fuel - 1, by omega⟩
  have hshape : matchedDumpsChars d ++ rest =
      '{' :: ('"' :: ("productos".data ++ '"' :: (':' :: (' ' :: ('[' ::
        (dumpProductList d ++ ']' :: ('}' :: rest))))))) := by
    simp [matchedDumpsChars, dumpStr]
  rw [hshape] at h
  have harr : readVal fuel (' ' :: ('[' :: (dumpProductList d ++ ']' :: ('}' :: rest)))) =
      some (.arr (d.map productJson), '}' :: rest) := by
    refine readVal_prodarray d fuel (by omega) hp _ _ ?_
    rw [skipWs_space, skipWs_lbrack]
  have hmem : readMembers (fuel + 1) ('"' :: ("productos".data ++ '"' :: (':' :: (' ' :: ('[' ::
      (dumpProductList d ++ ']' :: ('}' :: rest))))))) =
      some ([("productos", Json.arr (d.map productJson))], rest) := by
    simp only [readMembers, skipWs_quote, readStrBody_dump "productos" (by decide),
      skipWs_colon, harr, skipWs_rbrace, Char.reduceEq, reduceIte, if_true, if_false,
      List.map]
  simp only [readVal, h, skipWs_quote, hmem, Char.reduceEq, reduceIte, if_true, if_false,
    Option.map, matchedJson]

theorem length_dumpFields (p : List (String × String)) : p.length ≤ (dumpFields p).length := by
  induction p with
  | nil => simp [dumpFields]
  | cons a t ih =>
    obtain ⟨k, v⟩ := a
    cases t with
    | nil => simp [dumpFields, dumpStr, List.length_append]
    | cons b t' =>
      simp only [dumpFields, dumpStr, List.length_append, List.length_cons] at ih ⊢
      omega

theorem fuelItems_le_length (d : MatchedDict) :
    fuelItems d ≤ (dumpProductList d).length + 3 := by
  induction d with
  | nil => simp [fuelItems, dumpProductList]
  | cons p t ih =>
    cases t with
    | nil =>
      have hfl := length_dumpFields p
      simp only [fuelItems, dumpProductList, dumpProduct, List.map_cons, List.map_nil,
        List.sum_cons, List.sum_nil, List.length_append, List.length_cons] at hfl ⊢
      omega
    | cons q t' =>
      have hfl := length_dumpFields p
      simp only [fuelItems, dumpProductList, dumpProduct, List.map_cons, List.sum_cons,
        List.length_append, List.length_cons] at ih hfl ⊢
      omega

theorem matchedDumpsChars_getLast (d : MatchedDict) :
    (matchedDumpsChars d).getLast? = some '}' := by
  have hsh : matchedDumpsChars d =
      ('{' :: (dumpStr "productos" ++ (':' :: (' ' :: ('[' ::
        (dumpProductList d ++ [']'])))))) ++ ['}'] := by
    simp [matchedDumpsChars]
  rw [hsh, List.getLast?_concat]

theorem jsonLoads_matchedDumps (d : MatchedDict) (hp : plainDict d = true) :
    jsonLoads (matchedDumps d) = some (matchedJson d) := by
  unfold jsonLoads matchedDumps
  rw [data_string_mk]
  have htrim : trimChars isWs (matchedDumpsChars d) = matchedDumpsChars d := by
    have := trimChars_wrap isWs [] [] (matchedDumpsChars d) (by simp) (by simp)
      '{' rfl rfl '}' (matchedDumpsChars_getLast d) rfl
    simpa using this
  rw [htrim]
  have hlen : fuelItems d + 4 ≤ (matchedDumpsChars d).length + 1 := by
    have := fuelItems_le_length d
    simp only [matchedDumpsChars, dumpStr, List.length_cons, List.length_append] at this ⊢
    omega
  have hread := readVal_matched d ((matchedDumpsChars d).length + 1) hlen hp
    (matchedDumpsChars d) [] (by simp only [matchedDumpsChars, skipWs_lbrace, List.append_nil])
  simp only [hread, List.isEmpty_nil, if_true]

theorem matchedDumps_strip (d : MatchedDict) :
    pyStripMarkers (matchedDumps d) = matchedDumps d := by
  unfold pyStripMarkers matchedDumps
  rw [data_string_mk]
  have := trimChars_wrap stripSetChar [] [] (matchedDumpsChars d) (by simp) (by simp)
    '{' rfl rfl '}' (matchedDumpsChars_getLast d) rfl
  rw [show ([] : List Char) ++ matchedDumpsChars d ++ [] = matchedDumpsChars d by simp] at this
  rw [this]

/-- C10: the string-input path of `generate_invoice_pdf` is the
dict-input path after one JSON decode: for every matched-products
dictionary (serialized with `json.dumps`, whose output starts with a
brace, so the code-fence strip removes nothing, and decodes back to the
same value), the generator returns exactly the same outcome as on the
dictionary itself. -/
theorem spec_C10_string_path_equals_dict_path (d : MatchedDict) (hp : plainDict d = true) :
    generate_invoice_pdf (.str (matchedDumps d)) =
      generate_invoice_pdf (.dict (matchedJson d)) := by
  simp only [generate_invoice_pdf, matchedDumps_strip d, jsonLoads_matchedDumps d hp]

/-- Witness for C10: the one-product dictionary of the test corpus. -/
theorem spec_C10_string_path_equals_dict_path_witness :
    plainDict [[("nombre", "LAPTOP HP"), ("cantidad", "5"), ("costo", "$800.00")]] = true ∧
    generate_invoice_pdf (.str (matchedDumps
        [[("nombre", "LAPTOP HP"), ("cantidad", "5"), ("costo", "$800.00")]])) =
      generate_invoice_pdf (.dict (matchedJson
        [[("nombre", "LAPTOP HP"), ("cantidad", "5"), ("costo", "$800.00")]])) :=
  ⟨by decide, spec_C10_string_path_equals_dict_path
    [[("nombre", "LAPTOP HP"), ("cantidad", "5"), ("costo", "$800.00")]] (by decide)⟩
end Valora
